import Mathlib

/-!
Verification of the response-normalization and statistical-scoring core of a
credit-scoring validator.  The Python modules `analysis/robustness.py`,
`analysis/consistency.py`, `analysis/bias_fairness.py` and
`analysis/transparency.py` are shallowly embedded below: machine floats become
rationals, Python dicts become records or association lists, regex scans become
explicit character-list scanners, and the oracle gateway (`api/client.py`,
`send_request`) becomes an explicit response value or an `Option`-valued
parameter.
-/

namespace CreditValidator

/-! ## Character/string helpers

Python operates on strings with `.lower()`, substring tests (`"x" in s`),
`str.split()` and small regexes.  These are modelled by structural scanners
over `List Char`. -/

/-- Python `str.lower()` (adequate for the ASCII keywords the analyzers scan for). -/
def lowerStr (s : String) : String :=
  String.mk (s.data.map Char.toLower)

/-- Does the first list occur as an initial segment of the second? -/
def isPrefixList : List Char → List Char → Bool
  | [], _ => true
  | _ :: _, [] => false
  | a :: as, b :: bs => a == b && isPrefixList as bs

/-- Does `n` occur as a contiguous sublist of the second argument?  Models
Python's `n in s` substring test. -/
def occursList (n : List Char) : List Char → Bool
  | [] => n.isEmpty
  | b :: bs => isPrefixList n (b :: bs) || occursList n bs

/-- Python `needle in hay` on strings. -/
def containsSub (hay needle : String) : Bool :=
  occursList needle.data hay.data

/-- Numeric value of a digit run (Python `int` on a decimal digit string). -/
def digitsVal (ds : List Char) : ℕ :=
  ds.foldl (fun a c => a * 10 + (c.toNat - 48)) 0

/-- Fractional value of a digit run read after a decimal point. -/
def fracVal (ds : List Char) : ℚ :=
  (digitsVal ds : ℚ) / (10 : ℚ) ^ ds.length

/-- Python `re.search(r'score:(\d+)', text)`: first occurrence of the marker
`score:` that is immediately followed by at least one digit; returns the value
of the maximal digit run there. -/
def findScoreNum : List Char → Option ℕ
  | [] => none
  | c :: cs =>
    if isPrefixList ("score:".data) (c :: cs) then
      let ds := (cs.drop 5).takeWhile Char.isDigit
      if ds.isEmpty then findScoreNum cs else some (digitsVal ds)
    else findScoreNum cs

/-- Python `re.findall(r'(\d+)%', text)`, first match: the first maximal digit
run immediately followed by `'%'`. -/
def findPercentNat : List Char → Option ℕ
  | [] => none
  | c :: cs =>
    if c.isDigit then
      let run := (c :: cs).takeWhile Char.isDigit
      match (c :: cs).drop run.length with
      | '%' :: _ => some (digitsVal run)
      | _ => findPercentNat cs
    else findPercentNat cs

/-- Python `re.findall(r'(\d+(?:\.\d+)?)%', text)`, first match: a maximal
digit run, optionally a decimal point with a maximal digit run, immediately
followed by `'%'`; the matched number is returned as a rational. -/
def findPercentDec : List Char → Option ℚ
  | [] => none
  | c :: cs =>
    if c.isDigit then
      let run := (c :: cs).takeWhile Char.isDigit
      match (c :: cs).drop run.length with
      | '.' :: r2 =>
        let run2 := r2.takeWhile Char.isDigit
        if run2.isEmpty then findPercentDec cs
        else
          match r2.drop run2.length with
          | '%' :: _ => some ((digitsVal run : ℚ) + fracVal run2)
          | _ => findPercentDec cs
      | '%' :: _ => some ((digitsVal run : ℚ))
      | _ => findPercentDec cs
    else findPercentDec cs

/-- Python whitespace characters relevant to `str.split()`. -/
def isSpaceChar (c : Char) : Bool :=
  c = ' ' || c = '\t' || c = '\n' || c = '\r'

/-- Accumulator-style splitter over characters: words are maximal runs of
non-whitespace characters (the accumulator holds the current word reversed). -/
def wsSplitAux : List Char → List Char → List (List Char)
  | [], acc => if acc.isEmpty then [] else [acc.reverse]
  | c :: cs, acc =>
    if isSpaceChar c then
      if acc.isEmpty then wsSplitAux cs [] else acc.reverse :: wsSplitAux cs []
    else wsSplitAux cs (c :: acc)

/-- Python `s.split()`: split on whitespace runs, dropping empty pieces. -/
def splitWS (s : String) : List String :=
  (wsSplitAux s.data []).map String.mk

/-- Space-joining of words (Python `' '.join(words)`). -/
def joinSpace : List String → String
  | [] => ""
  | [w] => w
  | w :: ws => w ++ " " ++ joinSpace ws

/-- Python `' '.join(s.split())`: collapse all whitespace runs to single
spaces and strip the ends. -/
def squashWS (s : String) : String :=
  joinSpace (splitWS s)

/-- Decimal digit character for a value below 10. -/
def digitChar (n : ℕ) : Char := Char.ofNat (48 + n)

/-- Decimal digits of a natural number (fuel-based structural recursion). -/
def natDigits : ℕ → ℕ → List Char
  | 0, _ => []
  | fuel + 1, n =>
    if n < 10 then [digitChar n]
    else natDigits fuel (n / 10) ++ [digitChar (n % 10)]

/-- Decimal rendering of a natural number. -/
def natToStr (n : ℕ) : String := String.mk (natDigits (n + 1) n)

/-- Stand-in for Python `str()` on a number that may be an int or a float:
integers render as their decimal digits, non-integers in a fractional form.
Only the integer case is exercised by the analyzers' regexes. -/
def renderQ (q : ℚ) : String :=
  if q.den = 1 then
    (if q.num < 0 then "-" ++ natToStr q.num.natAbs else natToStr q.num.natAbs)
  else natToStr q.num.natAbs ++ "/" ++ natToStr q.den

/-! ## Oracle response values

`api/client.py`'s `send_request` never raises: it returns either a success
dict `{raw_response, parsed, status, status_code}` (where `parsed` holds
`credit_score`, `classification`, `explanation`) or an error dict containing
an `error_type` key.  The analyzers additionally tolerate bare strings, dicts
with only a `raw_response` key, other dicts, truthy non-dict `parsed` values
and falsy responses.  Each shape is one constructor; for the shapes the
analyzers only ever `str()`, the constructor carries that rendered string. -/
inductive ApiResponse where
  | nullR : ApiResponse
  | errorR (msg : Option String) : ApiResponse
  | parsedR (credit_score : Option ℚ) (classification : Option String)
      (explanation : Option String) : ApiResponse
  | parsedStrR (s : String) : ApiResponse
  | rawR (s : String) : ApiResponse
  | dictR (s : String) : ApiResponse
  | strR (s : String) : ApiResponse
deriving DecidableEq

/-- Python truthiness of an optional string (`None` and `""` are falsy). -/
def truthyStr : Option String → Bool
  | none => false
  | some s => s ≠ ""

/-- Python truthiness of an optional number (`None` and `0.0` are falsy). -/
def truthyQ : Option ℚ → Bool
  | none => false
  | some q => q ≠ 0

/-- `numpy.mean` over a list of rationals (callers guard against `[]`). -/
def listMean (l : List ℚ) : ℚ := l.sum / l.length

/-- `numpy.max` over a list of rationals (callers guard against `[]`). -/
def listMax : List ℚ → ℚ
  | [] => 0
  | x :: xs => xs.foldl max x

/-- `numpy.min` over a list of rationals (callers guard against `[]`). -/
def listMin : List ℚ → ℚ
  | [] => 0
  | x :: xs => xs.foldl min x

/-- The square of `numpy.std`: the mean squared deviation from the mean.
The Python code stores the square root of this; the root is irrational in
general, so the development records the variance instead. -/
def listVar (l : List ℚ) : ℚ :=
  listMean (l.map (fun x => (x - listMean l) * (x - listMean l)))

namespace Robustness

/-- `analysis/robustness.py`, `calculate_confidence_from_score`: distance of
the score from the neutral point 50, mapped to a confidence in [0.5, 1.0];
`None` passes through. -/
def calculate_confidence_from_score : Option ℚ → Option ℚ
  | none => none
  | some credit_score =>
    let distance_from_middle : ℚ := |credit_score - 50| / 50
    let confidence : ℚ := 1/2 + distance_from_middle * (1/2)
    some (min confidence 1)

/-- `analysis/robustness.py`, `extract_response_text`: render a response value
as text.  Error dicts become `"Error: <msg>"`, parsed dicts become a
`score:.. class:.. reason:..` summary (or `"no_data"` when empty), other
shapes pass their string form through. -/
def extract_response_text : ApiResponse → String
  | ApiResponse.nullR => ""
  | ApiResponse.errorR msg => "Error: " ++ msg.getD "Unknown error"
  | ApiResponse.parsedR cs cls ex =>
    let parts : List String :=
      (match cs with
        | some q => ["score:" ++ renderQ q]
        | none => [])
      ++ (if truthyStr cls then ["class:" ++ cls.getD ""] else [])
      ++ (if truthyStr ex then ["reason:" ++ ex.getD ""] else [])
    if parts.isEmpty then "no_data" else joinSpace parts
  | ApiResponse.parsedStrR s => s
  | ApiResponse.rawR s => s
  | ApiResponse.dictR s => s
  | ApiResponse.strR s => s

/-- `analysis/robustness.py`, `parse_credit_decision`: returns
`(decision, confidence, reasoning)`.  Structured `class:`/`score:` text is
parsed with the average-reclassification thresholds (score ≥ 70 → good,
score < 60 → poor); otherwise keyword scanning applies.  Confidence comes
from an explicit percentage, a confidence keyword, or the score proxy. -/
def parse_credit_decision (response : ApiResponse) : Option String × Option ℚ × String :=
  let response_text := extract_response_text response
  if response_text = "" then (none, none, "No response")
  else
    let text_lower := lowerStr response_text
    let decision : Option String :=
      if containsSub text_lower "class:" then
        if containsSub text_lower "class:good" || containsSub text_lower "class:approved" then
          some "good"
        else if containsSub text_lower "class:poor" || containsSub text_lower "class:bad"
            || containsSub text_lower "class:denied" then
          some "poor"
        else if containsSub text_lower "class:average" || containsSub text_lower "class:moderate" then
          if containsSub text_lower "score:" then
            match findScoreNum text_lower.data with
            | some score =>
              if score ≥ 70 then some "good"
              else if score < 60 then some "poor"
              else some "average"
            | none => none
          else some "average"
        else none
      else
        if containsSub text_lower "good" || containsSub text_lower "approve"
            || containsSub text_lower "approved" then
          some "good"
        else if containsSub text_lower "poor" || containsSub text_lower "deny"
            || containsSub text_lower "denied" || containsSub text_lower "reject" then
          some "poor"
        else if containsSub text_lower "average" || containsSub text_lower "moderate" then
          some "average"
        else none
    let confidence : Option ℚ :=
      match findPercentNat response_text.data with
      | some n => some ((n : ℚ) / 100)
      | none =>
        if containsSub text_lower "high confidence" then some (8/10)
        else if containsSub text_lower "medium confidence" then some (6/10)
        else if containsSub text_lower "low confidence" then some (4/10)
        else if containsSub text_lower "score:" then
          match findScoreNum text_lower.data with
          | some score => calculate_confidence_from_score (some (score : ℚ))
          | none => none
        else none
    (decision, confidence, response_text)

/-- One record of `results/responses/robustness.jsonl` as consumed by
`analyze_robustness_results` (the unused data fields are omitted). -/
structure RobustnessRecord where
  perturbation_type : String
  original_response : ApiResponse
  perturbed_response : ApiResponse

/-- Per-perturbation-type accumulator (`perturbation_stats[ptype]`). -/
structure PerturbationStat where
  total : ℕ
  consistent_decisions : ℕ
  confidence_drops : List ℚ
deriving DecidableEq

/-- One entry of `results["failure_cases"]`. -/
structure FailureCase where
  perturbation_type : String
  original_decision : Option String
  perturbed_decision : Option String
  original_confidence : Option ℚ
  perturbed_confidence : Option ℚ
  original_response : String
  perturbed_response : String

/-- Python `text[:200] + "..." if len(text) > 200 else text`. -/
def truncate200 (s : String) : String :=
  if s.data.length > 200 then String.mk (s.data.take 200) ++ "..." else s

/-- The mutable loop state of `analyze_robustness_results`. -/
structure LoopState where
  decision_consistent : ℕ
  valid_examples : ℕ
  confidence_differences : List ℚ
  perturbation_stats : List (String × PerturbationStat)
  failure_cases : List FailureCase

/-- Lookup in the insertion-ordered `perturbation_stats` dict. -/
def lookupStat : List (String × PerturbationStat) → String → Option PerturbationStat
  | [], _ => none
  | (k, v) :: rest, key => if k = key then some v else lookupStat rest key

/-- In-place update (or append) in the insertion-ordered stats dict. -/
def setStat : List (String × PerturbationStat) → String → PerturbationStat →
    List (String × PerturbationStat)
  | [], key, v => [(key, v)]
  | (k, w) :: rest, key, v =>
    if k = key then (k, v) :: rest else (k, w) :: setStat rest key v

/-- The body of the `for response in responses` loop of
`analyze_robustness_results`: skip records whose original call failed, count
the pair as consistent when the decisions match or the perturbed call errored,
record confidence deltas, and log failure cases. -/
def processRecord (st : LoopState) (r : RobustnessRecord) : LoopState :=
  let po := parse_credit_decision r.original_response
  let pp := parse_credit_decision r.perturbed_response
  let original_decision := po.1
  let original_conf := po.2.1
  let orig_text := po.2.2
  let perturbed_decision := pp.1
  let perturbed_conf := pp.2.1
  let pert_text := pp.2.2
  if original_decision.isNone && containsSub (lowerStr orig_text) "error" then st
  else
    let stat0 := (lookupStat st.perturbation_stats r.perturbation_type).getD ⟨0, 0, []⟩
    let stat1 : PerturbationStat := { stat0 with total := stat0.total + 1 }
    let decisions_consistent : Bool :=
      if perturbed_decision.isNone && containsSub (lowerStr pert_text) "error" then true
      else decide (original_decision = perturbed_decision)
    let stat2 : PerturbationStat :=
      if decisions_consistent then
        { stat1 with consistent_decisions := stat1.consistent_decisions + 1 }
      else stat1
    let confPair : List ℚ :=
      match original_conf, perturbed_conf with
      | some oc, some pc => [|oc - pc|]
      | _, _ => []
    let stat3 : PerturbationStat :=
      { stat2 with confidence_drops := stat2.confidence_drops ++ confPair }
    let failures : List FailureCase :=
      if !decisions_consistent
          || (truthyQ original_conf && truthyQ perturbed_conf
              && decide (|original_conf.getD 0 - perturbed_conf.getD 0| > 3/10)) then
        st.failure_cases
          ++ [⟨r.perturbation_type, original_decision, perturbed_decision, original_conf,
              perturbed_conf, truncate200 orig_text, truncate200 pert_text⟩]
      else st.failure_cases
    { decision_consistent := st.decision_consistent + (if decisions_consistent then 1 else 0),
      valid_examples := st.valid_examples + 1,
      confidence_differences := st.confidence_differences ++ confPair,
      perturbation_stats := setStat st.perturbation_stats r.perturbation_type stat3,
      failure_cases := failures }

/-- `results["confidence_stability"]`: statistics over all confidence deltas;
the fields stay absent when no pair had both confidences.  Python stores
`np.std`; this embedding stores its square (see `listVar`). -/
structure ConfidenceStability where
  mean_difference : Option ℚ
  max_difference : Option ℚ
  var_difference : Option ℚ

/-- One entry of `results["perturbation_analysis"]`. -/
structure PerturbationReport where
  total_examples : ℕ
  consistency_rate : ℚ
  average_confidence_drop : ℚ
  max_confidence_drop : ℚ

/-- The aggregate result of `analyze_robustness_results`. -/
structure RobustnessResults where
  total_examples : ℕ
  rate : ℚ
  consistent_count : ℕ
  inconsistent_count : ℕ
  confidence_stability : ConfidenceStability
  perturbation_analysis : List (String × PerturbationReport)
  robustness_score : ℚ
  failure_cases : List FailureCase

/-- `analysis/robustness.py`, `analyze_robustness_results`: fold the loop over
all records, then aggregate rates, confidence stability, per-perturbation
reports and the overall `0.7 * decisions + 0.3 * confidence` score. -/
def analyze_robustness_results (responses : List RobustnessRecord) : RobustnessResults :=
  let st := responses.foldl processRecord ⟨0, 0, [], [], []⟩
  let valid := st.valid_examples
  let rate : ℚ := if valid > 0 then (st.decision_consistent : ℚ) / valid else 0
  let conf_stab : ConfidenceStability :=
    if st.confidence_differences.isEmpty then ⟨none, none, none⟩
    else
      ⟨some (listMean st.confidence_differences),
       some (listMax st.confidence_differences),
       some (listVar st.confidence_differences)⟩
  let pa : List (String × PerturbationReport) :=
    st.perturbation_stats.map (fun kv =>
      (kv.1,
        ⟨kv.2.total,
         if kv.2.total > 0 then (kv.2.consistent_decisions : ℚ) / kv.2.total else 0,
         if kv.2.confidence_drops.isEmpty then 0 else listMean kv.2.confidence_drops,
         if kv.2.confidence_drops.isEmpty then 0 else listMax kv.2.confidence_drops⟩))
  let decision_score := rate
  let confidence_score : ℚ :=
    max 0 (min 1 (1 - ((conf_stab.mean_difference).getD (1/2))))
  { total_examples := valid,
    rate := rate,
    consistent_count := st.decision_consistent,
    inconsistent_count := valid - st.decision_consistent,
    confidence_stability := conf_stab,
    perturbation_analysis := pa,
    robustness_score := decision_score * (7/10) + confidence_score * (3/10),
    failure_cases := st.failure_cases }

/-- The initial loop state of `analyze_robustness_results`. -/
def initState : LoopState := ⟨0, 0, [], [], []⟩

end Robustness

namespace Consistency

/-- `analysis/consistency.py`, `calculate_confidence_from_score`: a verbatim
copy of the robustness version. -/
def calculate_confidence_from_score : Option ℚ → Option ℚ
  | none => none
  | some credit_score =>
    let distance_from_middle : ℚ := |credit_score - 50| / 50
    let confidence : ℚ := 1/2 + distance_from_middle * (1/2)
    some (min confidence 1)

/-- Stand-in for Python `str()` applied to a whole response dict (only its
text matters to downstream keyword scans, and no analyzed branch depends on
the exact dict repr). -/
def errorDictStr (msg : Option String) : String :=
  "error_type error " ++ msg.getD "Unknown error"

/-- `analysis/consistency.py`, `normalize_response_text`: string form of a
response, lowercased, stripped, with whitespace runs collapsed.  Parsed dicts
render as a `score:.. class:.. reason:..` summary with the explanation
truncated to 100 characters; unlike the robustness variant there is no
error-dict branch, so error dicts fall through to `str(response)`. -/
def normalize_response_text (response : ApiResponse) : String :=
  let response_text :=
    match response with
    | ApiResponse.parsedR cs cls ex =>
      let parts : List String :=
        (match cs with
          | some q => ["score:" ++ renderQ q]
          | none => [])
        ++ (if truthyStr cls then ["class:" ++ cls.getD ""] else [])
        ++ (if truthyStr ex then ["reason:" ++ String.mk ((ex.getD "").data.take 100)] else [])
      if parts.isEmpty then "no_data" else joinSpace parts
    | ApiResponse.parsedStrR s => s
    | ApiResponse.rawR s => s
    | ApiResponse.errorR msg => errorDictStr msg
    | ApiResponse.dictR s => s
    | ApiResponse.strR s => s
    | ApiResponse.nullR => ""
  if response_text = "" then ""
  else squashWS (lowerStr response_text)

/-- `analysis/consistency.py`, `extract_decision_and_confidence`: returns
`(decision, confidence)`.  Structured parsed dicts map the classification
through keyword families with the average-reclassification thresholds and
synthesize a confidence from an explicit percentage, a confidence keyword, or
the score proxy; other shapes fall back to keyword scanning over their
text. -/
def extract_decision_and_confidence (response : ApiResponse) : Option String × Option ℚ :=
  match response with
  | ApiResponse.nullR => (none, none)
  | ApiResponse.parsedR cs cls ex =>
    let classification := lowerStr (cls.getD "")
    let credit_score := cs
    let explanation := lowerStr (ex.getD "")
    let decision : Option String :=
      if classification ∈ (["good", "approved", "approve"] : List String) then some "good"
      else if classification ∈ (["poor", "bad", "denied", "deny", "reject"] : List String) then
        some "poor"
      else if classification ∈ (["average", "moderate"] : List String) then
        match credit_score with
        | some q =>
          if q ≥ 70 then some "good"
          else if q < 60 then some "poor"
          else some "average"
        | none => some "average"
      else none
    let confidence : Option ℚ :=
      if explanation ≠ "" then
        match findPercentDec explanation.data with
        | some v => some (v / 100)
        | none =>
          if containsSub explanation "high confidence" then some (9/10)
          else if containsSub explanation "medium confidence" then some (7/10)
          else if containsSub explanation "low confidence" then some (1/2)
          else none
      else none
    let confidence2 : Option ℚ :=
      if confidence.isNone && credit_score.isSome then
        calculate_confidence_from_score credit_score
      else confidence
    (decision, confidence2)
  | other =>
    let response_text :=
      match other with
      | ApiResponse.parsedStrR s => s
      | ApiResponse.rawR s => s
      | ApiResponse.errorR msg => errorDictStr msg
      | ApiResponse.dictR s => s
      | ApiResponse.strR s => s
      | _ => ""
    let text_lower := lowerStr response_text
    let decision : Option String :=
      if containsSub text_lower "good" || containsSub text_lower "approve"
          || containsSub text_lower "approved" then some "good"
      else if containsSub text_lower "poor" || containsSub text_lower "deny"
          || containsSub text_lower "denied" || containsSub text_lower "reject" then some "poor"
      else if containsSub text_lower "average" || containsSub text_lower "moderate" then
        some "average"
      else none
    let confidence : Option ℚ :=
      match findPercentDec response_text.data with
      | some v => some (v / 100)
      | none =>
        if containsSub text_lower "high confidence" then some (8/10)
        else if containsSub text_lower "medium confidence" then some (6/10)
        else if containsSub text_lower "low confidence" then some (4/10)
        else none
    (decision, confidence)

/-- One record of `results/responses/consistency.jsonl` as consumed by
`analyze_consistency_results` (each element of `responses` is the `response`
field of one repeat; the bookkeeping fields are omitted). -/
structure ConsRecord where
  input_hash : String
  input_data : String
  responses : List ApiResponse

/-- Jaccard similarity over the word sets of two normalized texts; 1.0 when
both are empty. -/
def jaccard (a b : String) : ℚ :=
  let words1 := (splitWS a).dedup
  let words2 := (splitWS b).dedup
  if words1.isEmpty && words2.isEmpty then 1
  else ((words1.filter (fun w => w ∈ words2)).length : ℚ)
    / ((words1 ++ words2.filter (fun w => w ∉ words1)).length : ℚ)

/-- All pairwise similarities in loop order (`i < j`). -/
def pairSims : List String → List ℚ
  | [] => []
  | t :: rest => rest.map (jaccard t) ++ pairSims rest

/-- One entry of `results["consistency_by_input"]`. -/
structure InputAnalysis where
  input_hash : String
  num_responses : ℕ
  perfect_consistent : Bool
  decision_consistent : Bool
  confidence_consistent : Bool
  avg_text_similarity : ℚ
  unique_responses : ℕ
  decisions : List (Option String)
  confidences : List (Option ℚ)
  response_texts : List String

/-- One entry of `results["inconsistent_cases"]`. -/
structure InconsistentCase where
  input_hash : String
  input_data : String
  responses : List String
  decisions : List (Option String)
  confidences : List (Option ℚ)
  issues : List String

/-- The mutable loop state of `analyze_consistency_results`. -/
structure ConsState where
  total_responses : ℕ
  perfect_count : ℕ
  decision_count : ℕ
  confidence_count : ℕ
  all_sims : List ℚ
  by_input : List InputAnalysis
  inconsistent : List InconsistentCase

/-- The body of the `for input_record in consistency_data` loop: the response
total is bumped first, records with fewer than two responses are skipped, and
the three consistency counters, the similarity pool, the per-input analyses
and the inconsistent cases are updated. -/
def processConsRecord (st : ConsState) (rec : ConsRecord) : ConsState :=
  let st0 := { st with total_responses := st.total_responses + rec.responses.length }
  if rec.responses.length < 2 then st0
  else
    let response_texts := rec.responses.map normalize_response_text
    let decisions := rec.responses.map (fun r => (extract_decision_and_confidence r).1)
    let confidences := rec.responses.map (fun r => (extract_decision_and_confidence r).2)
    let perfect_consistent : Bool := decide (response_texts.dedup.length = 1)
    let decision_consistent : Bool := decide ((decisions.filterMap id).dedup.length ≤ 1)
    let confidence_values := confidences.filterMap id
    let confidence_consistent : Bool :=
      if confidence_values.isEmpty then false
      else decide (listMax confidence_values - listMin confidence_values ≤ 1/20)
    let text_similarities := pairSims response_texts
    let avg_text_similarity : ℚ :=
      if text_similarities.isEmpty then 1 else listMean text_similarities
    let ia : InputAnalysis :=
      ⟨rec.input_hash, rec.responses.length, perfect_consistent, decision_consistent,
        confidence_consistent, avg_text_similarity, response_texts.dedup.length,
        decisions, confidences, response_texts.take 3⟩
    let issues : List String :=
      (if !decision_consistent then ["decision_inconsistency"] else [])
      ++ (if !confidence_consistent && !confidence_values.isEmpty then
            ["confidence_inconsistency"] else [])
      ++ (if avg_text_similarity < 8/10 then ["text_dissimilarity"] else [])
    { total_responses := st0.total_responses,
      perfect_count := st.perfect_count + (if perfect_consistent then 1 else 0),
      decision_count := st.decision_count + (if decision_consistent then 1 else 0),
      confidence_count := st.confidence_count + (if confidence_consistent then 1 else 0),
      all_sims := st.all_sims ++ text_similarities,
      by_input := st.by_input ++ [ia],
      inconsistent :=
        if !perfect_consistent then
          st.inconsistent
            ++ [⟨rec.input_hash, rec.input_data, response_texts, decisions, confidences, issues⟩]
        else st.inconsistent }

/-- `results["statistics"]` (with `np.std` stored squared, see `listVar`). -/
structure ConsStatistics where
  mean_text_similarity : ℚ
  var_text_similarity : ℚ
  min_text_similarity : ℚ
  max_text_similarity : ℚ
  perfect_consistency_rate : ℚ
  decision_consistency_rate : ℚ
  confidence_consistency_rate : ℚ

/-- The aggregate result of `analyze_consistency_results`. -/
structure ConsistencyResults where
  total_inputs : ℕ
  total_responses : ℕ
  perfect_consistency : ℚ
  decision_consistency : ℚ
  confidence_consistency : ℚ
  text_similarity_scores : List ℚ
  consistency_by_input : List InputAnalysis
  inconsistent_cases : List InconsistentCase
  overall_consistency_score : ℚ
  statistics : ConsStatistics

/-- The initial loop state of `analyze_consistency_results`. -/
def initConsState : ConsState := ⟨0, 0, 0, 0, [], [], []⟩

/-- `analysis/consistency.py`, `analyze_consistency_results`: fold the loop
over all records, divide the three counters by the number of input records
(defaulting all three rates to 1.0 on empty input), and combine them with the
mean text similarity into the weighted overall score (1.0 on empty input). -/
def analyze_consistency_results (consistency_data : List ConsRecord) : ConsistencyResults :=
  let st := consistency_data.foldl processConsRecord initConsState
  let total_inputs := consistency_data.length
  let perfect : ℚ :=
    if total_inputs > 0 then (st.perfect_count : ℚ) / total_inputs else 1
  let decision : ℚ :=
    if total_inputs > 0 then (st.decision_count : ℚ) / total_inputs else 1
  let confidence : ℚ :=
    if total_inputs > 0 then (st.confidence_count : ℚ) / total_inputs else 1
  let avg_text_similarity : ℚ :=
    if st.all_sims.isEmpty then 1 else listMean st.all_sims
  let decision_weight : ℚ := 1/2
  let confidence_weight : ℚ := 3/10
  let text_weight : ℚ := 1/5
  let overall : ℚ :=
    if total_inputs = 0 then 1
    else decision * decision_weight + confidence * confidence_weight
      + avg_text_similarity * text_weight
  { total_inputs := total_inputs,
    total_responses := st.total_responses,
    perfect_consistency := perfect,
    decision_consistency := decision,
    confidence_consistency := confidence,
    text_similarity_scores := st.all_sims,
    consistency_by_input := st.by_input,
    inconsistent_cases := st.inconsistent,
    overall_consistency_score := overall,
    statistics :=
      ⟨if st.all_sims.isEmpty then 1 else listMean st.all_sims,
       if st.all_sims.isEmpty then 0 else listVar st.all_sims,
       if st.all_sims.isEmpty then 1 else listMin st.all_sims,
       if st.all_sims.isEmpty then 1 else listMax st.all_sims,
       perfect, decision, confidence⟩ }

end Consistency

namespace Bias

/-- The flattened `parsed` part of `entry["output"]` (a missing or empty
`parsed` dict makes both fields `none`). -/
structure BiasOutput where
  classification : Option String
  credit_score : Option ℚ

/-- One line of `bias_fairness.jsonl` as read by `demographic_parity`:
`has_error` models the presence of an `error`/`error_type` key, `output`
models the `output` key and `input` the input row. -/
structure BiasEntry where
  has_error : Bool
  output : Option BiasOutput
  input : List (String × String)

/-- Python `dict.get` over the input row. -/
def lookupInput : List (String × String) → String → Option String
  | [], _ => none
  | (k, v) :: rest, key => if k = key then some v else lookupInput rest key

/-- `groups[group]`: the per-group accumulator of `demographic_parity`. -/
structure GroupStats where
  total : ℕ
  positive : ℕ
  scores : List ℚ
  classPoor : ℕ
  classAverage : ℕ
  classGood : ℕ
  errors : ℕ
deriving DecidableEq

/-- Lookup in the insertion-ordered groups dict. -/
def lookupGroup : List (String × GroupStats) → String → Option GroupStats
  | [], _ => none
  | (k, v) :: rest, key => if k = key then some v else lookupGroup rest key

/-- In-place update (or append) in the insertion-ordered groups dict. -/
def setGroup : List (String × GroupStats) → String → GroupStats →
    List (String × GroupStats)
  | [], key, v => [(key, v)]
  | (k, w) :: rest, key, v =>
    if k = key then (k, v) :: rest else (k, w) :: setGroup rest key v

/-- The per-group body of the `demographic_parity` loop once an entry is
accepted: bump the total, append the score, tally the classification, and
bump the positive count (classification equal to the positive class, or a
score of at least 70 when no classification is present). -/
def updateGroupStats (positive_class : String) (classification : Option String)
    (credit_score : Option ℚ) (st0 : GroupStats) : GroupStats :=
  let st1 : GroupStats := { st0 with total := st0.total + 1 }
  let st2 : GroupStats :=
    match credit_score with
    | some q => { st1 with scores := st1.scores ++ [q] }
    | none => st1
  let st3 : GroupStats :=
    if truthyStr classification then
      (if classification.getD "" = "Poor" then
        { st2 with classPoor := st2.classPoor + 1 }
      else if classification.getD "" = "Average" then
        { st2 with classAverage := st2.classAverage + 1 }
      else if classification.getD "" = "Good" then
        { st2 with classGood := st2.classGood + 1 }
      else st2)
    else st2
  let is_positive : Bool :=
    if truthyStr classification then decide (classification.getD "" = positive_class)
    else
      match credit_score with
      | some q => decide (q ≥ 70)
      | none => false
  if is_positive then { st3 with positive := st3.positive + 1 } else st3

/-- The body of the `for entry in responses` loop of `demographic_parity`:
skip error or outputless entries, skip entries without a group value or
without both classification and score, then update the entry's group. -/
def processBiasEntry (protected_attr positive_class : String)
    (groups : List (String × GroupStats)) (entry : BiasEntry) :
    List (String × GroupStats) :=
  if entry.has_error || entry.output.isNone then groups
  else
    let out := entry.output.getD ⟨none, none⟩
    let group := lookupInput entry.input protected_attr
    let classification := out.classification
    let credit_score := out.credit_score
    if group.isNone || (classification.isNone && credit_score.isNone) then groups
    else
      let g := group.getD ""
      let st0 := (lookupGroup groups g).getD ⟨0, 0, [], 0, 0, 0, 0⟩
      setGroup groups g (updateGroupStats positive_class classification credit_score st0)

/-- `analysis/bias_fairness.py`, `demographic_parity`. -/
def demographic_parity (responses : List BiasEntry) (protected_attr : String)
    (positive_class : String) : List (String × GroupStats) :=
  responses.foldl (processBiasEntry protected_attr positive_class) []

/-- The positive-outcome rates over groups with a nonzero total (the `rates`
dict comprehension of `disparate_impact_ratio`). -/
def groupRates (groups : List (String × GroupStats)) : List (String × ℚ) :=
  (groups.filter (fun kv => kv.2.total > 0)).map
    (fun kv => (kv.1, (kv.2.positive : ℚ) / kv.2.total))

/-- `analysis/bias_fairness.py`, `disparate_impact_ratio`: min over max of
the group rates; 0.0 when no group has a positive total or when the maximum
rate is 0.  Groups with a zero total are excluded from the rates. -/
def disparate_impact_ratio (groups : List (String × GroupStats)) : ℚ :=
  let rates := groupRates groups
  if rates.isEmpty then 0
  else
    let max_rate := listMax (rates.map Prod.snd)
    let min_rate := listMin (rates.map Prod.snd)
    if max_rate > 0 then min_rate / max_rate else 0

/-- The per-attribute counterfactual result stored by `run_bias_analysis`:
either the dict built by `counterfactual_fairness` or the
insufficient-domain marker dict. -/
inductive CFOutcome where
  | ran (total_rows total_tests violations : ℕ) (ratio : ℚ) (sample_size : ℕ)
      (bias_level : String) : CFOutcome
  | insufficient : CFOutcome

/-- The `violation_ratio` field (`None` on the marker dict). -/
def CFOutcome.violationRatioOpt : CFOutcome → Option ℚ
  | CFOutcome.ran _ _ _ r _ _ => some r
  | CFOutcome.insufficient => none

/-- The `note` field (present only on the marker dict). -/
def CFOutcome.noteOpt : CFOutcome → Option String
  | CFOutcome.ran _ _ _ _ _ _ => none
  | CFOutcome.insufficient => some "Not enough distinct values for counterfactuals"

/-- One sampled dataset row for `counterfactual_fairness`, carrying the
protected-attribute value and the parsed oracle responses this row elicits:
`origResp` for the unmodified row and `cfResp v` for the row with the
protected attribute set to `v` (each pair is the `classification` and
`credit_score` of the response's parsed part). -/
structure CFRow where
  attrVal : Option String
  origResp : Option String × Option ℚ
  cfResp : String → Option String × Option ℚ

/-- The body of the sampled-row loop of `counterfactual_fairness` over state
`(total_rows, (total_violations, oracle_calls))`: rows whose attribute value
is outside the domain are skipped without a call; rows whose original
response has neither classification nor score cost one call and are skipped;
otherwise every alternate value is tested (one call each) and a violation is
a classification change or an absolute score difference of at least 10. -/
def processCFRow (values : List String) (st : ℕ × ℕ × ℕ) (row : CFRow) : ℕ × ℕ × ℕ :=
  match row.attrVal with
  | none => st
  | some ov =>
    if ov ∈ values then
      let oc := row.origResp.1
      let os := row.origResp.2
      if oc.isNone && os.isNone then (st.1, st.2.1, st.2.2 + 1)
      else
        let alts := values.filter (fun v => v ≠ ov)
        let viols := (alts.filter (fun alt =>
          let cc := (row.cfResp alt).1
          let cs := (row.cfResp alt).2
          decide (oc ≠ cc)
            || (match os, cs with
                | some a, some b => decide (|a - b| ≥ 10)
                | _, _ => false))).length
        (st.1 + 1, st.2.1 + viols, st.2.2 + 1 + alts.length)
    else st

/-- `analysis/bias_fairness.py`, `counterfactual_fairness`, paired with the
number of oracle calls it performs. -/
def counterfactual_fairness (rows : List CFRow) (values : List String) :
    CFOutcome × ℕ :=
  let st := rows.foldl (processCFRow values) (0, 0, 0)
  let total_tests := st.1 * (values.length - 1)
  let ratio : ℚ := if total_tests > 0 then (st.2.1 : ℚ) / total_tests else 0
  (CFOutcome.ran st.1 total_tests st.2.1 ratio rows.length
      (if ratio > 1/20 then "HIGH" else if ratio > 1/100 then "LOW" else "MINIMAL"),
    st.2.2)

/-- The per-attribute counterfactual dispatch of `run_bias_analysis`
(`unique_vals` is `df[attr].dropna().unique().tolist()`): with at least two
distinct observed values the counterfactual analysis runs; otherwise no
oracle call happens and the marker dict is returned. -/
def runBiasAttrCF (rows : List CFRow) (unique_vals : List String) : CFOutcome × ℕ :=
  if unique_vals.length ≥ 2 then counterfactual_fairness rows unique_vals
  else (CFOutcome.insufficient, 0)

end Bias

namespace Transparency

/-- The analysis dict passed to `calculate_explanation_quality_score`: each
dimension is `analysis_results.get(dim, {}).get(score_key, 0)` collapsed to
one optional rational, and `compliant` is
`analysis_results.get('compliance', {}).get('compliant', True)`. -/
structure AnalysisResults where
  faithfulness : Option ℚ
  lime_alignment : Option ℚ
  specificity : Option ℚ
  completeness : Option ℚ
  consistency : Option ℚ
  counterfactual : Option ℚ
  readability : Option ℚ
  compliant : Option Bool

/-- The dict returned by `calculate_explanation_quality_score` (the constant
`weights` dict is not repeated here). -/
structure QualityScore where
  overall_score : ℚ
  category : String
  dimension_scores : List (String × ℚ)
  compliance_gate_applied : Bool
  is_compliant : Bool

/-- `analysis/transparency.py`, `calculate_explanation_quality_score`:
weighted sum of the seven dimension scores (weights 25/25/15/15/10/5/5),
capped at 20 when the compliance gate fires, then banded into a category. -/
def calculate_explanation_quality_score (ar : AnalysisResults) : QualityScore :=
  let scores : List (String × ℚ) :=
    [("faithfulness", ar.faithfulness.getD 0),
     ("lime_alignment", ar.lime_alignment.getD 0),
     ("specificity", ar.specificity.getD 0),
     ("completeness", ar.completeness.getD 0),
     ("consistency", ar.consistency.getD 0),
     ("counterfactual", ar.counterfactual.getD 0),
     ("readability", ar.readability.getD 0)]
  let weighted : ℚ :=
    (ar.faithfulness.getD 0) * 25 + (ar.lime_alignment.getD 0) * 25
      + (ar.specificity.getD 0) * 15 + (ar.completeness.getD 0) * 15
      + (ar.consistency.getD 0) * 10 + (ar.counterfactual.getD 0) * 5
      + (ar.readability.getD 0) * 5
  let is_compliant := ar.compliant.getD true
  let weighted_score := if is_compliant then weighted else min weighted 20
  let category :=
    if weighted_score ≥ 90 then "excellent"
    else if weighted_score ≥ 80 then "good"
    else if weighted_score ≥ 70 then "fair"
    else "poor"
  ⟨weighted_score, category, scores, !is_compliant, is_compliant⟩

/-- A JSON-ish oracle response value as probed by `extract_credit_score`:
either a dict carrying the four candidate score keys (each key absent,
numeric, or present but not convertible to float) and an optional nested
`response` value, or a non-dict value. -/
inductive LimeResp where
  | obj (credit_score score prediction result : Option (Option ℚ))
      (response : Option LimeResp) : LimeResp
  | nonDict : LimeResp

/-- `analysis/transparency.py`, `extract_credit_score`: try the keys
`credit_score`, `score`, `prediction`, `result` in order (a present but
non-numeric value makes `float` raise, which the surrounding `try` turns
into the 650.0 fallback), then recurse into `response`, else 650.0. -/
def extract_credit_score : LimeResp → ℚ
  | LimeResp.nonDict => 650
  | LimeResp.obj cs s p r resp =>
    match cs with
    | some (some q) => q
    | some none => 650
    | none =>
      match s with
      | some (some q) => q
      | some none => 650
      | none =>
        match p with
        | some (some q) => q
        | some none => 650
        | none =>
          match r with
          | some (some q) => q
          | some none => 650
          | none =>
            match resp with
            | some r2 => extract_credit_score r2
            | none => 650

/-- An applicant profile as consumed by `vectorize_profile` (absent numeric
fields default to 0; absent categorical ones to `rent` / `employed`). -/
structure Profile where
  age : Option ℚ
  income : Option ℚ
  credit_score : Option ℚ
  employment_length : Option ℚ
  debt_to_income : Option ℚ
  credit_utilization : Option ℚ
  savings_account : Option ℚ
  housing_status : Option String
  employment_status : Option String

/-- One-hot map for `housing_status` (unknown values encode as zeros). -/
def housingOneHot (h : String) : List ℚ :=
  if h = "rent" then [1, 0, 0]
  else if h = "own" then [0, 1, 0]
  else if h = "mortgage" then [0, 0, 1]
  else [0, 0, 0]

/-- One-hot map for `employment_status` (unknown values encode as zeros). -/
def employmentOneHot (e : String) : List ℚ :=
  if e = "employed" then [1, 0, 0, 0]
  else if e = "unemployed" then [0, 1, 0, 0]
  else if e = "self_employed" then [0, 0, 1, 0]
  else if e = "retired" then [0, 0, 0, 1]
  else [0, 0, 0, 0]

/-- `analysis/transparency.py`, `vectorize_profile`: the seven ordered
numeric fields followed by the two one-hot encodings. -/
def vectorize_profile (p : Profile) : List ℚ :=
  [p.age.getD 0, p.income.getD 0, p.credit_score.getD 0, p.employment_length.getD 0,
    p.debt_to_income.getD 0, p.credit_utilization.getD 0, p.savings_account.getD 0]
    ++ housingOneHot (p.housing_status.getD "rent")
    ++ employmentOneHot (p.employment_status.getD "employed")

/-- `analysis/transparency.py`, `get_feature_names`. -/
def get_feature_names : List String :=
  ["age", "income", "credit_score", "employment_length", "debt_to_income",
   "credit_utilization", "savings_account", "housing_rent", "housing_own",
   "housing_mortgage", "employment_employed", "employment_unemployed",
   "employment_self_employed", "employment_retired"]

/-- One row of the LIME design matrix. -/
structure LimeSample where
  features : List ℚ
  score : ℚ
  weight : ℚ

/-- One iteration of the sampling loop of `generate_lime_explanation`: the
perturbed profile comes from the (random) perturbation generator, the score
from the oracle call with the fixed 650.0 substituted when the call raises,
and the weight from the RBF kernel.  The ambient randomness and the
real-valued kernel enter as function parameters. -/
def limeSample (perturb : ℕ → Profile) (oracle : ℕ → Option LimeResp)
    (weight : ℕ → ℚ) (i : ℕ) : LimeSample :=
  { features := vectorize_profile (perturb i),
    score :=
      match oracle i with
      | some resp => extract_credit_score resp
      | none => 650,
    weight := weight i }

/-- The full design matrix built by the sampling loop: one sample per
iteration, `n_samples` in total. -/
def limeSamples (perturb : ℕ → Profile) (oracle : ℕ → Option LimeResp)
    (weight : ℕ → ℚ) (n_samples : ℕ) : List LimeSample :=
  (List.range n_samples).map (limeSample perturb oracle weight)

/-- The outcome of the weighted linear regression (`LinearRegression.fit`
plus `r2_score`): per-feature coefficients and the weighted R². -/
structure FitOutcome where
  coefficients : List ℚ
  r2 : ℚ

/-- Stable insertion into a list sorted descending by absolute coefficient
(mirrors the stable `sort(key=abs(coef), reverse=True)`). -/
def insertByAbs (x : String × ℚ) : List (String × ℚ) → List (String × ℚ)
  | [] => [x]
  | y :: ys => if |x.2| ≤ |y.2| then y :: insertByAbs x ys else x :: y :: ys

/-- Stable descending sort by absolute coefficient. -/
def sortByAbsDesc : List (String × ℚ) → List (String × ℚ)
  | [] => []
  | x :: xs => insertByAbs x (sortByAbsDesc xs)

/-- The result dict of `generate_lime_explanation`; `error` is present only
on the failure branch. -/
structure LimeResult where
  error : Option String
  local_model_r2 : ℚ
  feature_importance : List (String × ℚ)
  top_positive_features : List (String × ℚ)
  top_negative_features : List (String × ℚ)
  original_prediction : Option LimeResp
  samples_generated : ℕ
  mean_similarity_weight : ℚ

/-- The explicit error dict returned when anything in the LIME pipeline
raises: zeroed R², empty importances, zero samples. -/
def limeErrorResult (msg : String) : LimeResult :=
  ⟨some msg, 0, [], [], [], none, 0, 0⟩

/-- `analysis/transparency.py`, `generate_lime_explanation`, with the random
perturbation stream, the oracle, the similarity kernel and the regression fit
supplied as parameters; `fit ... = none` and `origCall = none` model the
respective calls raising, which the surrounding `except` turns into the
explicit error dict instead of propagating. -/
def generate_lime_explanation (perturb : ℕ → Profile) (oracle : ℕ → Option LimeResp)
    (weight : ℕ → ℚ) (fit : List LimeSample → Option FitOutcome)
    (origCall : Option LimeResp) (n_samples n_features : ℕ) : LimeResult :=
  let samples := limeSamples perturb oracle weight n_samples
  match fit samples, origCall with
  | some f, some op =>
    let importance_pairs := sortByAbsDesc (get_feature_names.zip f.coefficients)
    let top_features := importance_pairs.take n_features
    { error := none,
      local_model_r2 := f.r2,
      feature_importance := top_features,
      top_positive_features := top_features.filter (fun nc => nc.2 > 0),
      top_negative_features := top_features.filter (fun nc => nc.2 < 0),
      original_prediction := some op,
      samples_generated := samples.length,
      mean_similarity_weight := listMean (samples.map LimeSample.weight) }
  | _, _ => limeErrorResult "lime_unavailable"

end Transparency

/-! ### Concrete inputs used by witnesses and counterexamples -/

/-- Concrete robustness comparison: original call succeeds with class Good,
perturbed call returns a transport-error dict. -/
def c3rec : Robustness.RobustnessRecord :=
  ⟨"noise_numerical", ApiResponse.parsedR (some 80) (some "Good") none,
    ApiResponse.errorR none⟩

/-- Concrete robustness comparison refuting C6: both calls succeed with class
Good, but the score-proxy confidences are 0.8 and 0.95, a delta of 0.15 ≥ the
claimed tolerance 0.10. -/
def c6rec : Robustness.RobustnessRecord :=
  ⟨"noise_numerical", ApiResponse.parsedR (some 80) (some "Good") none,
    ApiResponse.parsedR (some 95) (some "Good") none⟩

/-- Concrete changed pair: class Good versus class Poor. -/
def c6chg : Robustness.RobustnessRecord :=
  ⟨"extreme_values", ApiResponse.parsedR (some 80) (some "Good") none,
    ApiResponse.parsedR (some 30) (some "Poor") none⟩

/-- Concrete one-response dataset for C10. -/
def c10data : List Consistency.ConsRecord :=
  [⟨"hash0", "row0", [ApiResponse.parsedR (some 70) (some "Good") none]⟩]

/-- All seven dimensions at their maximum 1.0 (raw weighted sum 100) with a
failed compliance check. -/
def c1ar : Transparency.AnalysisResults :=
  ⟨some 1, some 1, some 1, some 1, some 1, some 1, some 1, some false⟩

/-- Groups dict with one zero-total group and one group of rate 0.5. -/
def c4gs : List (String × Bias.GroupStats) :=
  [("A", ⟨0, 0, [], 0, 0, 0, 0⟩), ("B", ⟨2, 1, [], 0, 0, 0, 0⟩)]

/-- All-zero-totals groups dict for the C4 witness. -/
def c4gsZero : List (String × Bias.GroupStats) := [("A", ⟨0, 0, [], 0, 0, 0, 0⟩)]

/-- Concrete entry list for the C4 witness. -/
def c4entries : List Bias.BiasEntry :=
  [⟨false, some ⟨some "Good", some 80⟩, [("gender", "female")]⟩]

/-- The all-absent profile used by the C9 witness. -/
def c9profile : Transparency.Profile :=
  ⟨none, none, none, none, none, none, none, none, none⟩

/-- C2: Confidence proxy.  For every numeric credit score the function returns
`0.5 + 0.5 * |score - 50| / 50` clamped to at most 1.0; score 50 yields 0.5,
scores 0 and 100 yield 1.0, score 75 yields 0.75, and for every score in
[0, 100] the result lies in [0.5, 1.0].  Both the robustness and the
consistency copies behave identically. -/
theorem c2_confidence_proxy (q : ℚ) (h0 : 0 ≤ q) (h100 : q ≤ 100) :
    Robustness.calculate_confidence_from_score (some q)
        = some (min (1/2 + |q - 50| / 50 * (1/2)) 1)
      ∧ Consistency.calculate_confidence_from_score (some q)
        = Robustness.calculate_confidence_from_score (some q)
      ∧ Robustness.calculate_confidence_from_score (some 50) = some (1/2)
      ∧ Robustness.calculate_confidence_from_score (some 0) = some 1
      ∧ Robustness.calculate_confidence_from_score (some 100) = some 1
      ∧ Robustness.calculate_confidence_from_score (some 75) = some (3/4)
      ∧ ∃ c, Robustness.calculate_confidence_from_score (some q) = some c
          ∧ 1/2 ≤ c ∧ c ≤ 1 := by
  have habs : |q - 50| ≤ 50 := by
    rw [abs_le]; constructor <;> linarith
  have habs0 : 0 ≤ |q - 50| := abs_nonneg _
  refine ⟨rfl, rfl, by norm_num [Robustness.calculate_confidence_from_score],
    by norm_num [Robustness.calculate_confidence_from_score],
    by norm_num [Robustness.calculate_confidence_from_score],
    by norm_num [Robustness.calculate_confidence_from_score],
    min (1/2 + |q - 50| / 50 * (1/2)) 1, rfl, ?_, min_le_right _ _⟩
  refine le_min (by linarith) (by norm_num)

/-- Witness for C2 at the concrete score 75. -/
theorem c2_confidence_proxy_witness :
    (0:ℚ) ≤ 75 ∧ (75:ℚ) ≤ 100
      ∧ Robustness.calculate_confidence_from_score (some 75) = some (3/4) :=
  ⟨by norm_num, by norm_num,
    (c2_confidence_proxy 75 (by norm_num) (by norm_num)).2.2.2.2.2.1⟩

namespace Robustness

lemma foldl_processRecord_append (rs : List RobustnessRecord) (r : RobustnessRecord)
    (init : LoopState) :
    (rs ++ [r]).foldl processRecord init = processRecord (rs.foldl processRecord init) r := by
  simp [List.foldl_append]

lemma analyze_consistent_eq (rs : List RobustnessRecord) :
    (analyze_robustness_results rs).consistent_count
      = (rs.foldl processRecord initState).decision_consistent := rfl

lemma analyze_total_eq (rs : List RobustnessRecord) :
    (analyze_robustness_results rs).total_examples
      = (rs.foldl processRecord initState).valid_examples := rfl

lemma analyze_inconsistent_eq (rs : List RobustnessRecord) :
    (analyze_robustness_results rs).inconsistent_count
      = (rs.foldl processRecord initState).valid_examples
        - (rs.foldl processRecord initState).decision_consistent := rfl

/-- An original decision together with an errored perturbed call makes the
loop count the pair as consistent and valid. -/
lemma processRecord_error_robust (st : LoopState) (r : RobustnessRecord) (d : String)
    (hod : (parse_credit_decision r.original_response).1 = some d)
    (hpd : (parse_credit_decision r.perturbed_response).1 = none)
    (herr : containsSub (lowerStr (parse_credit_decision r.perturbed_response).2.2) "error"
      = true) :
    (processRecord st r).decision_consistent = st.decision_consistent + 1
      ∧ (processRecord st r).valid_examples = st.valid_examples + 1 := by
  simp [processRecord, hod, hpd, herr]

/-- With both decisions present, the loop counts the pair as consistent
exactly when the labels agree; confidences play no part. -/
lemma processRecord_both_present (st : LoopState) (r : RobustnessRecord) (a b : String)
    (ha : (parse_credit_decision r.original_response).1 = some a)
    (hb : (parse_credit_decision r.perturbed_response).1 = some b) :
    (processRecord st r).decision_consistent
        = st.decision_consistent + (if a = b then 1 else 0)
      ∧ (processRecord st r).valid_examples = st.valid_examples + 1 := by
  simp [processRecord, ha, hb]

end Robustness

namespace Consistency

/-- Records with fewer than two responses leave all three consistency
counters untouched. -/
lemma foldl_skip_counts (data : List ConsRecord) :
    ∀ st : ConsState, (∀ r ∈ data, r.responses.length < 2) →
      (data.foldl processConsRecord st).perfect_count = st.perfect_count
        ∧ (data.foldl processConsRecord st).decision_count = st.decision_count
        ∧ (data.foldl processConsRecord st).confidence_count = st.confidence_count := by
  induction data with
  | nil => exact fun st _ => ⟨rfl, rfl, rfl⟩
  | cons r rest ih =>
    intro st h
    have hr : r.responses.length < 2 := h r (List.mem_cons_self r rest)
    have hrest : ∀ x ∈ rest, x.responses.length < 2 := fun x hx =>
      h x (List.mem_cons_of_mem r hx)
    have hstep : processConsRecord st r
        = { st with total_responses := st.total_responses + r.responses.length } := by
      simp [processConsRecord, hr]
    rw [List.foldl_cons, hstep]
    exact ih _ hrest

end Consistency

/-- C3: Robustness error handling.  Appending a comparison whose original
response parses to a usable decision while the perturbed response parses to
no decision with an error marker in its text increases the consistent
(robust) count and the valid total by one and leaves the inconsistency count
unchanged. -/
theorem c3_error_pair_counted_robust (rs : List Robustness.RobustnessRecord)
    (r : Robustness.RobustnessRecord) (d : String)
    (hod : (Robustness.parse_credit_decision r.original_response).1 = some d)
    (hpd : (Robustness.parse_credit_decision r.perturbed_response).1 = none)
    (herr : containsSub (lowerStr (Robustness.parse_credit_decision r.perturbed_response).2.2)
      "error" = true) :
    (Robustness.analyze_robustness_results (rs ++ [r])).consistent_count
        = (Robustness.analyze_robustness_results rs).consistent_count + 1
      ∧ (Robustness.analyze_robustness_results (rs ++ [r])).total_examples
        = (Robustness.analyze_robustness_results rs).total_examples + 1
      ∧ (Robustness.analyze_robustness_results (rs ++ [r])).inconsistent_count
        = (Robustness.analyze_robustness_results rs).inconsistent_count := by
  obtain ⟨h1, h2⟩ := Robustness.processRecord_error_robust
    (rs.foldl Robustness.processRecord Robustness.initState) r d hod hpd herr
  refine ⟨?_, ?_, ?_⟩
  · rw [Robustness.analyze_consistent_eq, Robustness.analyze_consistent_eq,
      Robustness.foldl_processRecord_append, h1]
  · rw [Robustness.analyze_total_eq, Robustness.analyze_total_eq,
      Robustness.foldl_processRecord_append, h2]
  · rw [Robustness.analyze_inconsistent_eq, Robustness.analyze_inconsistent_eq,
      Robustness.foldl_processRecord_append, h1, h2, Nat.succ_sub_succ]

/-- Witness for C3 on `c3rec`. -/
theorem c3_error_pair_counted_robust_witness :
    (Robustness.parse_credit_decision c3rec.original_response).1 = some "good"
      ∧ (Robustness.parse_credit_decision c3rec.perturbed_response).1 = none
      ∧ containsSub (lowerStr (Robustness.parse_credit_decision c3rec.perturbed_response).2.2)
          "error" = true
      ∧ ((Robustness.analyze_robustness_results ([] ++ [c3rec])).consistent_count
            = (Robustness.analyze_robustness_results []).consistent_count + 1
          ∧ (Robustness.analyze_robustness_results ([] ++ [c3rec])).total_examples
            = (Robustness.analyze_robustness_results []).total_examples + 1
          ∧ (Robustness.analyze_robustness_results ([] ++ [c3rec])).inconsistent_count
            = (Robustness.analyze_robustness_results []).inconsistent_count) :=
  ⟨by decide, by decide, by decide,
    c3_error_pair_counted_robust [] c3rec "good" (by decide) (by decide) (by decide)⟩

/-- C6 counterexample: a pair with equal labels whose confidences differ by
0.15 ≥ 0.10 is still counted as consistent (not changed), contradicting the
claim that a confidence delta at or above the 0.10 tolerance makes the pair
count as changed. -/
theorem c6_counterexample_confidence_delta_ignored :
    (Robustness.parse_credit_decision c6rec.original_response).1 = some "good"
      ∧ (Robustness.parse_credit_decision c6rec.perturbed_response).1 = some "good"
      ∧ (Robustness.parse_credit_decision c6rec.original_response).2.1 = some (4/5)
      ∧ (Robustness.parse_credit_decision c6rec.perturbed_response).2.1 = some (19/20)
      ∧ (1/10 : ℚ) ≤ |(4/5 : ℚ) - 19/20|
      ∧ (Robustness.analyze_robustness_results [c6rec]).consistent_count = 1
      ∧ (Robustness.analyze_robustness_results [c6rec]).inconsistent_count = 0 := by
  refine ⟨by decide, by decide, ?_, ?_, by rw [le_abs]; right; norm_num, by decide, by decide⟩
  · simp +decide [Robustness.parse_credit_decision, Robustness.extract_response_text, c6rec,
      Robustness.calculate_confidence_from_score, lowerStr, containsSub, occursList,
      isPrefixList, findPercentNat, findScoreNum, digitsVal, renderQ, natToStr, natDigits,
      digitChar, joinSpace, truthyStr]
    norm_num
  · simp +decide [Robustness.parse_credit_decision, Robustness.extract_response_text, c6rec,
      Robustness.calculate_confidence_from_score, lowerStr, containsSub, occursList,
      isPrefixList, findPercentNat, findScoreNum, digitsVal, renderQ, natToStr, natDigits,
      digitChar, joinSpace, truthyStr]
    norm_num

/-- C6 amended: when both decisions are present, the robustness loop counts
the pair as changed exactly when the labels differ; confidence deltas never
enter the consistent/changed decision (they only feed the confidence
stability statistics and, above 0.3, the failure-case list). -/
theorem c6_changed_iff_labels_differ (rs : List Robustness.RobustnessRecord)
    (r : Robustness.RobustnessRecord) (a b : String)
    (ha : (Robustness.parse_credit_decision r.original_response).1 = some a)
    (hb : (Robustness.parse_credit_decision r.perturbed_response).1 = some b) :
    (Robustness.analyze_robustness_results (rs ++ [r])).consistent_count
        = (Robustness.analyze_robustness_results rs).consistent_count
          + (if a = b then 1 else 0)
      ∧ (Robustness.analyze_robustness_results (rs ++ [r])).total_examples
        = (Robustness.analyze_robustness_results rs).total_examples + 1 := by
  obtain ⟨h1, h2⟩ := Robustness.processRecord_both_present
    (rs.foldl Robustness.processRecord Robustness.initState) r a b ha hb
  refine ⟨?_, ?_⟩
  · rw [Robustness.analyze_consistent_eq, Robustness.analyze_consistent_eq,
      Robustness.foldl_processRecord_append, h1]
  · rw [Robustness.analyze_total_eq, Robustness.analyze_total_eq,
      Robustness.foldl_processRecord_append, h2]

/-- C5: Average reclassification.  A parsed response whose classification
lowercases to "average" or "moderate" resolves to "good" when the numeric
score is at least 70, to "poor" when it is below 60, to "average" otherwise,
and stays "average" when no score is present. -/
theorem c5_average_reclassification (cs : Option ℚ) (cls : String) (ex : Option String)
    (h : lowerStr cls = "average" ∨ lowerStr cls = "moderate") :
    (Consistency.extract_decision_and_confidence (ApiResponse.parsedR cs (some cls) ex)).1
      = match cs with
        | some q =>
          if q ≥ 70 then some "good"
          else if q < 60 then some "poor"
          else some "average"
        | none => some "average" := by
  rcases h with h | h <;> cases cs <;>
    simp +decide [Consistency.extract_decision_and_confidence, h]

/-- Witness for C5: classification "Average" with score 75 resolves to
"good". -/
theorem c5_average_reclassification_witness :
    (lowerStr "Average" = "average" ∨ lowerStr "Average" = "moderate")
      ∧ (Consistency.extract_decision_and_confidence
          (ApiResponse.parsedR (some 75) (some "Average") none)).1 = some "good" :=
  ⟨Or.inl (by decide), by
    have h := c5_average_reclassification (some 75) "Average" none (Or.inl (by decide))
    rw [h]; norm_num⟩

/-- C7: Vacuous consistency.  On an empty record list the consistency
analyzer reports an overall score of 1.0 and perfect, decision and confidence
rates of 1.0 rather than dividing by zero. -/
theorem c7_vacuous_consistency :
    (Consistency.analyze_consistency_results []).overall_consistency_score = 1
      ∧ (Consistency.analyze_consistency_results []).perfect_consistency = 1
      ∧ (Consistency.analyze_consistency_results []).decision_consistency = 1
      ∧ (Consistency.analyze_consistency_results []).confidence_consistency = 1 :=
  ⟨rfl, rfl, rfl, rfl⟩

/-- C10: Implicit skipped-record denominator.  The three consistency rates
divide by the total number of input records while single-response records are
skipped before any check, so a non-empty dataset of one-response records gets
rates of 0.0 even though no two responses ever disagreed. -/
theorem c10_skipped_records_zero_rates (data : List Consistency.ConsRecord)
    (hne : data ≠ [])
    (h1 : ∀ r ∈ data, r.responses.length = 1) :
    (Consistency.analyze_consistency_results data).total_inputs = data.length
      ∧ (Consistency.analyze_consistency_results data).perfect_consistency = 0
      ∧ (Consistency.analyze_consistency_results data).decision_consistency = 0
      ∧ (Consistency.analyze_consistency_results data).confidence_consistency = 0 := by
  have h2 : ∀ r ∈ data, r.responses.length < 2 := fun r hr => by
    rw [h1 r hr]; norm_num
  obtain ⟨hp, hd, hc⟩ := Consistency.foldl_skip_counts data Consistency.initConsState h2
  simp only [Consistency.initConsState] at hp hd hc
  have hpos : 0 < data.length := List.length_pos.mpr hne
  refine ⟨rfl, ?_, ?_, ?_⟩ <;>
    simp [Consistency.analyze_consistency_results, Consistency.initConsState, hp, hd, hc, hpos]

/-- Witness for C10 on a singleton dataset whose only record has exactly one
response. -/
theorem c10_skipped_records_zero_rates_witness :
    c10data ≠ [] ∧ (∀ r ∈ c10data, r.responses.length = 1)
      ∧ ((Consistency.analyze_consistency_results c10data).total_inputs = c10data.length
          ∧ (Consistency.analyze_consistency_results c10data).perfect_consistency = 0
          ∧ (Consistency.analyze_consistency_results c10data).decision_consistency = 0
          ∧ (Consistency.analyze_consistency_results c10data).confidence_consistency = 0) :=
  ⟨by simp [c10data], by decide,
    c10_skipped_records_zero_rates c10data (by simp [c10data]) (by decide)⟩

/-- C1: Compliance gate.  Whatever the seven dimension scores are, a
compliance result with `compliant = false` caps the overall score at 20. -/
theorem c1_compliance_gate (ar : Transparency.AnalysisResults)
    (h : ar.compliant = some false) :
    (Transparency.calculate_explanation_quality_score ar).overall_score ≤ 20 := by
  simp only [Transparency.calculate_explanation_quality_score, h, Option.getD_some,
    Bool.false_eq_true, if_false]
  exact min_le_right _ _

/-- Witness for C1 on `c1ar`. -/
theorem c1_compliance_gate_witness :
    c1ar.compliant = some false
      ∧ (Transparency.calculate_explanation_quality_score c1ar).overall_score ≤ 20 :=
  ⟨rfl, c1_compliance_gate c1ar rfl⟩

/-- C8: Insufficient counterfactual domain.  With fewer than two distinct
observed values the per-attribute dispatch makes no oracle call and returns
the marker dict whose `violation_ratio` is `None` and whose note flags the
insufficient domain. -/
theorem c8_insufficient_domain (rows : List Bias.CFRow) (unique_vals : List String)
    (h : unique_vals.length < 2) :
    (Bias.runBiasAttrCF rows unique_vals).2 = 0
      ∧ Bias.CFOutcome.violationRatioOpt (Bias.runBiasAttrCF rows unique_vals).1 = none
      ∧ Bias.CFOutcome.noteOpt (Bias.runBiasAttrCF rows unique_vals).1
        = some "Not enough distinct values for counterfactuals" := by
  have h2 : ¬ unique_vals.length ≥ 2 := by omega
  simp [Bias.runBiasAttrCF, h2, Bias.CFOutcome.violationRatioOpt, Bias.CFOutcome.noteOpt]

/-- Witness for C8 on a single-value domain. -/
theorem c8_insufficient_domain_witness :
    (["female"] : List String).length < 2
      ∧ ((Bias.runBiasAttrCF [] ["female"]).2 = 0
          ∧ Bias.CFOutcome.violationRatioOpt (Bias.runBiasAttrCF [] ["female"]).1 = none
          ∧ Bias.CFOutcome.noteOpt (Bias.runBiasAttrCF [] ["female"]).1
            = some "Not enough distinct values for counterfactuals") :=
  ⟨by decide, c8_insufficient_domain [] ["female"] (by decide)⟩

lemma foldl_min_le_foldl_max (l : List ℚ) :
    ∀ a b : ℚ, a ≤ b → l.foldl min a ≤ l.foldl max b := by
  induction l with
  | nil => exact fun a b h => h
  | cons x xs ih =>
    intro a b h
    exact ih _ _ (le_trans (min_le_left a x) (le_trans h (le_max_left b x)))

lemma listMin_le_listMax (l : List ℚ) (h : l ≠ []) : listMin l ≤ listMax l := by
  cases l with
  | nil => exact absurd rfl h
  | cons x xs => exact foldl_min_le_foldl_max xs x x le_rfl

lemma foldl_min_nonneg (l : List ℚ) :
    ∀ a : ℚ, 0 ≤ a → (∀ x ∈ l, 0 ≤ x) → 0 ≤ l.foldl min a := by
  induction l with
  | nil => exact fun a ha _ => ha
  | cons x xs ih =>
    intro a ha h
    exact ih _ (le_min ha (h x (List.mem_cons_self x xs)))
      (fun y hy => h y (List.mem_cons_of_mem x hy))

lemma listMin_nonneg (l : List ℚ) (h : ∀ x ∈ l, 0 ≤ x) : 0 ≤ listMin l := by
  cases l with
  | nil => exact le_rfl
  | cons x xs =>
    exact foldl_min_nonneg xs x (h x (List.mem_cons_self x xs))
      (fun y hy => h y (List.mem_cons_of_mem x hy))

lemma groupRates_nonneg (gs : List (String × Bias.GroupStats)) :
    ∀ p ∈ (Bias.groupRates gs).map Prod.snd, 0 ≤ p := by
  intro p hp
  simp only [Bias.groupRates, List.map_map, List.mem_map, List.mem_filter,
    Function.comp] at hp
  obtain ⟨kv, _, hp⟩ := hp
  rw [← hp]
  exact div_nonneg (Nat.cast_nonneg _) (Nat.cast_nonneg _)

lemma di_ratio_eq (gs : List (String × Bias.GroupStats)) :
    Bias.disparate_impact_ratio gs =
      if (Bias.groupRates gs).isEmpty then 0
      else if listMax ((Bias.groupRates gs).map Prod.snd) > 0 then
        listMin ((Bias.groupRates gs).map Prod.snd)
          / listMax ((Bias.groupRates gs).map Prod.snd)
      else 0 := rfl

lemma di_ratio_bounds (gs : List (String × Bias.GroupStats)) :
    0 ≤ Bias.disparate_impact_ratio gs ∧ Bias.disparate_impact_ratio gs ≤ 1 := by
  rw [di_ratio_eq]
  split_ifs with h1 h2
  · exact ⟨le_rfl, by norm_num⟩
  · have hne : (Bias.groupRates gs).map Prod.snd ≠ [] := by
      intro hmap
      exact h1 (by simpa [List.isEmpty_iff, List.map_eq_nil_iff] using hmap)
    refine ⟨div_nonneg (listMin_nonneg _ (groupRates_nonneg gs)) (le_of_lt h2), ?_⟩
    exact (div_le_one h2).mpr (listMin_le_listMax _ hne)
  · exact ⟨le_rfl, by norm_num⟩

lemma lookupGroup_mem (gs : List (String × Bias.GroupStats)) (k : String)
    (v : Bias.GroupStats) : Bias.lookupGroup gs k = some v → (k, v) ∈ gs := by
  induction gs with
  | nil => intro h; simp [Bias.lookupGroup] at h
  | cons kv rest ih =>
    obtain ⟨a, b⟩ := kv
    intro h
    by_cases hk : a = k
    · have hv : b = v := by simpa [Bias.lookupGroup, hk] using h
      rw [← hk, ← hv]
      exact List.mem_cons_self (a, b) rest
    · exact List.mem_cons_of_mem (a, b)
        (ih (by simpa [Bias.lookupGroup, hk] using h))

lemma mem_setGroup (gs : List (String × Bias.GroupStats)) (k : String)
    (v : Bias.GroupStats) :
    ∀ kv ∈ Bias.setGroup gs k v, kv ∈ gs ∨ kv = (k, v) := by
  induction gs with
  | nil =>
    intro kv h
    simp only [Bias.setGroup, List.mem_singleton] at h
    right; exact h
  | cons hd rest ih =>
    obtain ⟨a, b⟩ := hd
    intro kv h
    by_cases hk : a = k
    · simp only [Bias.setGroup, hk, if_pos, List.mem_cons] at h
      rcases h with h | h
      · right; exact h
      · left; exact List.mem_cons_of_mem (a, b) h
    · simp only [Bias.setGroup, hk, if_neg, not_false_iff, List.mem_cons] at h
      rcases h with h | h
      · left; rw [h]; exact List.mem_cons_self (a, b) rest
      · rcases ih kv h with h' | h'
        · left; exact List.mem_cons_of_mem (a, b) h'
        · right; exact h'

/-- The group update of `demographic_parity` keeps the positive count below
the (now positive) total. -/
lemma updateGroupStats_invariant (pc : String) (cls : Option String)
    (cs : Option ℚ) (st0 : Bias.GroupStats) (h : st0.positive ≤ st0.total) :
    0 < (Bias.updateGroupStats pc cls cs st0).total
      ∧ (Bias.updateGroupStats pc cls cs st0).positive
        ≤ (Bias.updateGroupStats pc cls cs st0).total := by
  unfold Bias.updateGroupStats
  rcases cs with _ | q <;> split_ifs <;> simp <;> (try split_ifs) <;> (try simp) <;> omega

/-- The per-entry step of `demographic_parity` preserves the invariant that
every group has a positive total no smaller than its positive count. -/
lemma processBiasEntry_invariant (attr pc : String)
    (gs : List (String × Bias.GroupStats)) (e : Bias.BiasEntry)
    (h : ∀ kv ∈ gs, 0 < kv.2.total ∧ kv.2.positive ≤ kv.2.total) :
    ∀ kv ∈ Bias.processBiasEntry attr pc gs e,
      0 < kv.2.total ∧ kv.2.positive ≤ kv.2.total := by
  intro kv hkv
  simp only [Bias.processBiasEntry] at hkv
  split_ifs at hkv with h1 h2
  · exact h kv hkv
  · exact h kv hkv
  · have hst0 : ((Bias.lookupGroup gs
        ((Bias.lookupInput e.input attr).getD "")).getD ⟨0, 0, [], 0, 0, 0, 0⟩).positive
        ≤ ((Bias.lookupGroup gs
        ((Bias.lookupInput e.input attr).getD "")).getD ⟨0, 0, [], 0, 0, 0, 0⟩).total := by
      rcases hlook : Bias.lookupGroup gs ((Bias.lookupInput e.input attr).getD "")
          with _ | s
      · simp
      · simpa using (h _ (lookupGroup_mem gs _ s hlook)).2
    rcases mem_setGroup gs _ _ kv hkv with hmem | heq
    · exact h kv hmem
    · rw [heq]
      exact updateGroupStats_invariant pc _ _ _ hst0

/-- Every group built by `demographic_parity` has a positive total at least
as large as its positive count. -/
lemma dp_invariant (entries : List Bias.BiasEntry) (attr pc : String) :
    ∀ kv ∈ Bias.demographic_parity entries attr pc,
      0 < kv.2.total ∧ kv.2.positive ≤ kv.2.total := by
  have main : ∀ (es : List Bias.BiasEntry) (gs : List (String × Bias.GroupStats)),
      (∀ kv ∈ gs, 0 < kv.2.total ∧ kv.2.positive ≤ kv.2.total) →
      ∀ kv ∈ es.foldl (Bias.processBiasEntry attr pc) gs,
        0 < kv.2.total ∧ kv.2.positive ≤ kv.2.total := by
    intro es
    induction es with
    | nil => exact fun gs h => h
    | cons e rest ih =>
      intro gs h
      exact ih _ (processBiasEntry_invariant attr pc gs e h)
  exact main entries [] (by intro kv h; simp at h)

/-- C4 amended: demographic-parity group rates and the disparate-impact ratio
lie in [0, 1]; groups with a zero total are excluded from the rate map rather
than forcing the ratio to 0; the ratio is 0.0 exactly in the degenerate
cases: when no group has a positive total (in particular when every total is
zero) or when the maximum group rate is zero. -/
theorem c4_rates_ratio_bounds (entries : List Bias.BiasEntry) (attr pc : String)
    (gs : List (String × Bias.GroupStats)) :
    (∀ kv ∈ Bias.demographic_parity entries attr pc,
        0 < kv.2.total ∧ kv.2.positive ≤ kv.2.total
          ∧ 0 ≤ (kv.2.positive : ℚ) / kv.2.total
          ∧ (kv.2.positive : ℚ) / kv.2.total ≤ 1)
      ∧ 0 ≤ Bias.disparate_impact_ratio gs
      ∧ Bias.disparate_impact_ratio gs ≤ 1
      ∧ ((∀ kv ∈ gs, kv.2.total = 0) → Bias.disparate_impact_ratio gs = 0)
      ∧ (listMax ((Bias.groupRates gs).map Prod.snd) = 0 →
          Bias.disparate_impact_ratio gs = 0) := by
  obtain ⟨hr0, hr1⟩ := di_ratio_bounds gs
  refine ⟨?_, hr0, hr1, ?_, ?_⟩
  · intro kv hkv
    obtain ⟨ht, hp⟩ := dp_invariant entries attr pc kv hkv
    have htq : (0:ℚ) < kv.2.total := by exact_mod_cast ht
    refine ⟨ht, hp, div_nonneg (Nat.cast_nonneg _) (Nat.cast_nonneg _), ?_⟩
    exact (div_le_one htq).mpr (by exact_mod_cast hp)
  · intro hall
    have hempty : Bias.groupRates gs = [] := by
      simp only [Bias.groupRates, List.map_eq_nil_iff, List.filter_eq_nil_iff]
      intro kv hkv
      simp [hall kv hkv]
    rw [di_ratio_eq, hempty]
    simp
  · intro hmax
    rw [di_ratio_eq]
    split_ifs with h1 h2
    · rfl
    · exact absurd hmax (ne_of_gt h2)
    · rfl

/-- C4 counterexample: a groups mapping containing a zero-total group does
not make the ratio 0.0 — the zero-total group is silently dropped and the
ratio of the remaining group is 1. -/
theorem c4_counterexample_zero_total_group :
    ("A", (⟨0, 0, [], 0, 0, 0, 0⟩ : Bias.GroupStats)) ∈ c4gs
      ∧ (⟨0, 0, [], 0, 0, 0, 0⟩ : Bias.GroupStats).total = 0
      ∧ Bias.disparate_impact_ratio c4gs = 1
      ∧ Bias.disparate_impact_ratio c4gs ≠ 0 := by
  have hval : Bias.disparate_impact_ratio c4gs = 1 := by
    rw [di_ratio_eq]
    norm_num [Bias.groupRates, c4gs, listMax, listMin]
  exact ⟨by simp [c4gs], rfl, hval, by rw [hval]; norm_num⟩

/-- Witness for the amended C4: on the all-zero-totals dict the implication
fires and yields ratio 0, and the bounds hold. -/
theorem c4_rates_ratio_bounds_witness :
    (∀ kv ∈ c4gsZero, kv.2.total = 0)
      ∧ Bias.disparate_impact_ratio c4gsZero = 0
      ∧ 0 ≤ Bias.disparate_impact_ratio c4gsZero := by
  have h := c4_rates_ratio_bounds c4entries "gender" "Good" c4gsZero
  exact ⟨by decide, h.2.2.2.1 (by decide), h.2.1⟩

/-- Witness for the amended C6 on `c6chg`. -/
theorem c6_changed_iff_labels_differ_witness :
    (Robustness.parse_credit_decision c6chg.original_response).1 = some "good"
      ∧ (Robustness.parse_credit_decision c6chg.perturbed_response).1 = some "poor"
      ∧ ((Robustness.analyze_robustness_results ([] ++ [c6chg])).consistent_count
            = (Robustness.analyze_robustness_results []).consistent_count
              + (if "good" = "poor" then 1 else 0)
          ∧ (Robustness.analyze_robustness_results ([] ++ [c6chg])).total_examples
            = (Robustness.analyze_robustness_results []).total_examples + 1) :=
  ⟨by decide, by decide,
    c6_changed_iff_labels_differ [] c6chg "good" "poor" (by decide) (by decide)⟩

/-- C9: Surrogate failure policy.  The design matrix always holds exactly
`n_samples` rows; a failing oracle call contributes the fixed neutral score
650.0 instead of discarding the row; when the regression fit raises, the
function returns the explicit error dict (with `local_model_r2 = 0` and empty
`feature_importance`) instead of propagating the exception; and on the
success path the reported sample count is exactly `n_samples`. -/
theorem c9_lime_failure_policy (perturb : ℕ → Transparency.Profile)
    (oracle : ℕ → Option Transparency.LimeResp) (weight : ℕ → ℚ)
    (fit : List Transparency.LimeSample → Option Transparency.FitOutcome)
    (origCall : Option Transparency.LimeResp) (n_samples n_features : ℕ) :
    (Transparency.limeSamples perturb oracle weight n_samples).length = n_samples
      ∧ (∀ i, oracle i = none →
          (Transparency.limeSample perturb oracle weight i).score = 650)
      ∧ (fit (Transparency.limeSamples perturb oracle weight n_samples) = none →
          Transparency.generate_lime_explanation perturb oracle weight fit origCall
              n_samples n_features
            = Transparency.limeErrorResult "lime_unavailable")
      ∧ (fit (Transparency.limeSamples perturb oracle weight n_samples) = none →
          (Transparency.generate_lime_explanation perturb oracle weight fit origCall
              n_samples n_features).local_model_r2 = 0
            ∧ (Transparency.generate_lime_explanation perturb oracle weight fit origCall
              n_samples n_features).feature_importance = [])
      ∧ (∀ f op,
          fit (Transparency.limeSamples perturb oracle weight n_samples) = some f →
          origCall = some op →
          (Transparency.generate_lime_explanation perturb oracle weight fit origCall
              n_samples n_features).samples_generated = n_samples) := by
  refine ⟨?_, ?_, ?_, ?_, ?_⟩
  · simp [Transparency.limeSamples]
  · intro i h
    simp [Transparency.limeSample, h]
  · intro hfit
    simp [Transparency.generate_lime_explanation, hfit]
  · intro hfit
    simp [Transparency.generate_lime_explanation, hfit, Transparency.limeErrorResult]
  · intro f op hfit hop
    simp only [Transparency.generate_lime_explanation, hfit, hop]
    simp [Transparency.limeSamples]

/-- Witness for C9: two samples, every oracle call failing, regression fit
failing. -/
theorem c9_lime_failure_policy_witness :
    ((fun _ : ℕ => (none : Option Transparency.LimeResp)) 0 = none)
      ∧ ((fun _ : List Transparency.LimeSample =>
            (none : Option Transparency.FitOutcome))
          (Transparency.limeSamples (fun _ => c9profile) (fun _ => none) (fun _ => 1) 2)
          = none)
      ∧ (Transparency.limeSamples (fun _ => c9profile) (fun _ => none) (fun _ => 1) 2).length
        = 2
      ∧ (Transparency.limeSample (fun _ => c9profile) (fun _ => none) (fun _ => 1) 0).score
        = 650
      ∧ Transparency.generate_lime_explanation (fun _ => c9profile) (fun _ => none)
          (fun _ => 1) (fun _ => none) none 2 10
        = Transparency.limeErrorResult "lime_unavailable" := by
  have h := c9_lime_failure_policy (fun _ => c9profile) (fun _ => none) (fun _ => 1)
    (fun _ => none) none 2 10
  exact ⟨rfl, rfl, h.1, h.2.1 0 rfl, h.2.2.1 rfl⟩

end CreditValidator
